import Mathlib

set_option maxHeartbeats 1000000

namespace JobSearch

/-- Decidable equality for `Except`, used to evaluate fallible definitions at
concrete inputs. -/
instance {ε α : Type} [DecidableEq ε] [DecidableEq α] : DecidableEq (Except ε α) := fun x y =>
  match x, y with
  | .ok a, .ok b => if h : a = b then .isTrue (by simp [h]) else .isFalse (by simp [h])
  | .ok _, .error _ => .isFalse (by simp)
  | .error _, .ok _ => .isFalse (by simp)
  | .error a, .error b => if h : a = b then .isTrue (by simp [h]) else .isFalse (by simp [h])

/-- Single-quote character, written via its code point. -/
def sq : String := String.singleton (Char.ofNat 39)

/-- Backslash character, written via its code point. -/
def bs : String := String.singleton (Char.ofNat 92)

/-- Scalar Python values that appear in the filters dictionary handled by
`SearchService._build_filter_expression` (src/services/search_service.py):
`None`, int, bool and str. -/
inductive SVal where
  | vnone : SVal
  | vint : Int → SVal
  | vbool : Bool → SVal
  | vstr : String → SVal
deriving DecidableEq, Repr

/-- A filter value: either a scalar or a Python list of scalars (the source only
ever reads list entries as scalars, via `int(...)`). -/
inductive FVal where
  | sv : SVal → FVal
  | vlist : List SVal → FVal
deriving DecidableEq, Repr

/-- Python truthiness for scalars. -/
def isTruthyS : SVal → Bool
  | .vnone => false
  | .vint n => n != 0
  | .vbool b => b
  | .vstr s => s != ""

/-- Python truthiness. -/
def isTruthy : FVal → Bool
  | .sv v => isTruthyS v
  | .vlist l => l != []

/-- Python `str(...)` on scalars (`_to_text` style conversion used when the
source interpolates a filter value into the predicate string). -/
def pyStrS : SVal → String
  | .vnone => "None"
  | .vint n => toString n
  | .vbool b => if b then "True" else "False"
  | .vstr s => s

/-- Python `str(...)` on filter values. Lists are rendered with brackets; the
source never interpolates a list value into a string condition. -/
def pyStr : FVal → String
  | .sv v => pyStrS v
  | .vlist l => "[" ++ String.intercalate ", " (l.map pyStrS) ++ "]"

/-- Decimal digit value of a character, if it is a digit. -/
def digitVal (c : Char) : Option Nat :=
  let n := c.toNat
  if 48 ≤ n ∧ n ≤ 57 then some (n - 48) else none

/-- The ASCII whitespace Python `int(str)` strips around the number: space and
the control characters 9-13 (tab through carriage return). -/
def isSpaceChar (c : Char) : Bool :=
  decide (c.toNat = 32 ∨ (9 ≤ c.toNat ∧ c.toNat ≤ 13))

/-- Remaining digits after the first one: further digits, with a single
underscore permitted between two digits (as Python int literals allow). -/
def parseRestDigits (acc : Nat) : List Char → Option Nat
  | [] => some acc
  | c :: cs =>
    match digitVal c with
    | some d => parseRestDigits (10 * acc + d) cs
    | none =>
      if c = Char.ofNat 95 then
        match cs with
        | c2 :: cs2 =>
          match digitVal c2 with
          | some d2 => parseRestDigits (10 * acc + d2) cs2
          | none => none
        | [] => none
      else none

/-- At least one decimal digit, then the underscore-aware rest. -/
def parsePyDigits : List Char → Option Nat
  | [] => none
  | c :: cs =>
    match digitVal c with
    | some d => parseRestDigits d cs
    | none => none

/-- Python `int(str)`: surrounding whitespace is stripped, then an optional
sign and decimal digits with single underscores between digits. This matches
Python exactly on ASCII strings; the non-ASCII digit and whitespace forms
Python also converts are elided, and `asciiOnly` marks where the model is
exact. -/
def strToInt (s : String) : Option Int :=
  let t := ((s.data.dropWhile isSpaceChar).reverse.dropWhile isSpaceChar).reverse
  match t with
  | [] => none
  | c :: cs =>
    if c = Char.ofNat 45 then (parsePyDigits cs).map (fun n => -(n : Int))
    else if c = Char.ofNat 43 then (parsePyDigits cs).map (fun n => (n : Int))
    else (parsePyDigits (c :: cs)).map (fun n => (n : Int))

/-- Python `int(...)` on scalars: ints pass through, bools map to 0 or 1,
strings must parse as an integer (else `ValueError`), `None` raises
`TypeError`. -/
def pyIntS : SVal → Except String Int
  | .vnone => .error "TypeError"
  | .vint n => .ok n
  | .vbool b => .ok (if b then 1 else 0)
  | .vstr s =>
    match strToInt s with
    | some n => .ok n
    | none => .error "ValueError"

/-- Python `int(...)` on filter values: lists raise `TypeError`. -/
def pyInt : FVal → Except String Int
  | .sv v => pyIntS v
  | .vlist _ => .error "TypeError"

/-- The filters dictionary consumed by `_build_filter_expression`. Each known
key is `none` when absent from the dict, `some v` when present with value `v`.
`extra` records any unrecognized keys (they make the dict non-empty but are
never read by the source). -/
structure Filters where
  status : Option FVal := none
  company : Option FVal := none
  jobRole : Option FVal := none
  seniority : Option FVal := none
  workMode : Option FVal := none
  currency : Option FVal := none
  location : Option FVal := none
  salaryMin : Option FVal := none
  salaryMax : Option FVal := none
  datePosted : Option FVal := none
  excludeExpired : Option FVal := none
  dateExpires : Option FVal := none
  extra : List String := []
deriving DecidableEq, Repr

/-- Python falsiness of the filters dict (`not filters`): true exactly when the
dict has no keys at all. -/
def isEmptyF (f : Filters) : Bool :=
  f.status.isNone && f.company.isNone && f.jobRole.isNone && f.seniority.isNone &&
  f.workMode.isNone && f.currency.isNone && f.location.isNone && f.salaryMin.isNone &&
  f.salaryMax.isNone && f.datePosted.isNone && f.excludeExpired.isNone &&
  f.dateExpires.isNone && f.extra.isEmpty

/-- Escaping of single quotes, `str(value).replace(quote, backslash-quote)`. -/
def escapeQ (s : String) : String := s.replace sq (bs ++ sq)

/-- The default PUBLISHED-only predicate string returned by
`_build_filter_expression` for absent or empty filters. -/
def published : String := "status == " ++ sq ++ "PUBLISHED" ++ sq

/-- Lines 111-115 of search_service.py: status defaults to PUBLISHED when the
key is absent; a present falsy value suppresses the condition. -/
def statusCondition (f : Filters) : List String :=
  let status := f.status.getD (.sv (.vstr "PUBLISHED"))
  if isTruthy status then
    ["status == " ++ sq ++ escapeQ (pyStr status) ++ sq]
  else []

/-- One string-equality condition (lines 117-128): added when the key is
present and truthy. -/
def strFieldCond (fieldName : String) (v : Option FVal) : List String :=
  match v with
  | some x =>
    if isTruthy x then [fieldName ++ " == " ++ sq ++ escapeQ (pyStr x) ++ sq]
    else []
  | none => []

/-- The five string-equality filters in source order. -/
def stringFieldConditions (f : Filters) : List String :=
  strFieldCond "company" f.company ++ strFieldCond "job_role" f.jobRole ++
  strFieldCond "seniority" f.seniority ++ strFieldCond "work_mode" f.workMode ++
  strFieldCond "currency" f.currency

/-- Location substring match (lines 130-133). -/
def locationCondition (f : Filters) : List String :=
  match f.location with
  | some x =>
    if isTruthy x then
      ["location like " ++ sq ++ "%" ++ escapeQ (pyStr x) ++ "%" ++ sq]
    else []
  | none => []

/-- Salary bound conditions (lines 135-145): a present non-None value goes
through `int(...)`, whose exception propagates. -/
def salaryConditions (f : Filters) : Except String (List String) := do
  let c1 ←
    match f.salaryMin with
    | some v =>
      if v = .sv .vnone then pure []
      else do
        let n ← pyInt v
        pure ["salary_min >= " ++ toString n]
    | none => pure []
  let c2 ←
    match f.salaryMax with
    | some v =>
      if v = .sv .vnone then pure []
      else do
        let n ← pyInt v
        pure ["salary_max <= " ++ toString n]
    | none => pure []
  pure (c1 ++ c2)

/-- datePosted conditions (lines 147-165): a two-element list is a millisecond
range, a string is matched against the two known relative keywords (anything
else is silently dropped), and any other value goes through `int(...)`. -/
def datePostedConditions (f : Filters) (nowMs : Int) : Except String (List String) :=
  match f.datePosted with
  | none => pure []
  | some v =>
    match v with
    | .vlist [a, b] => do
      let x ← pyIntS a
      let y ← pyIntS b
      pure ["date_posted >= " ++ toString x, "date_posted <= " ++ toString y]
    | .sv (.vstr s) =>
      if s = "last_7_days" then
        pure ["date_posted >= " ++ toString (nowMs - 7 * 24 * 60 * 60 * 1000)]
      else if s = "last_30_days" then
        pure ["date_posted >= " ++ toString (nowMs - 30 * 24 * 60 * 60 * 1000)]
      else pure []
    | other => do
      let n ← pyInt other
      pure ["date_posted == " ++ toString n]

/-- dateExpires handling (lines 167-179): unless the caller disables
excludeExpired, the non-expired clause is added; otherwise an explicit
dateExpires value is translated (range or exact, via `int(...)`). -/
def dateExpiresConditions (f : Filters) (nowMs : Int) : Except String (List String) :=
  if isTruthy (f.excludeExpired.getD (.sv (.vbool true))) then
    pure ["(date_expires == 0 || date_expires > " ++ toString nowMs ++ ")"]
  else
    match f.dateExpires with
    | none => pure []
    | some v =>
      match v with
      | .vlist [a, b] => do
        let x ← pyIntS a
        let y ← pyIntS b
        pure ["date_expires >= " ++ toString x, "date_expires <= " ++ toString y]
      | other => do
        let n ← pyInt other
        pure ["date_expires == " ++ toString n]

/-- All conditions other than the status condition, in source order. -/
def restConditions (f : Filters) (nowMs : Int) : Except String (List String) := do
  let sal ← salaryConditions f
  let dp ← datePostedConditions f nowMs
  let de ← dateExpiresConditions f nowMs
  pure (stringFieldConditions f ++ locationCondition f ++ sal ++ dp ++ de)

/-- The full conditions list built by `_build_filter_expression` for a
non-empty filters dict. -/
def buildConditions (f : Filters) (nowMs : Int) : Except String (List String) := do
  let rest ← restConditions f nowMs
  pure (statusCondition f ++ rest)

/-- `SearchService._build_filter_expression` (search_service.py lines 105-186):
absent or empty filters yield the default PUBLISHED predicate; otherwise the
conditions are joined with AND, falling back to the default when no condition
was built. `nowMs` stands for the current epoch milliseconds the source reads
from the clock. -/
def buildFilterExpression (filters : Option Filters) (nowMs : Int) : Except String String :=
  match filters with
  | none => .ok published
  | some f =>
    if isEmptyF f then .ok published
    else do
      let conds ← buildConditions f nowMs
      if conds.isEmpty then pure published
      else pure (String.intercalate " && " conds)

/-- Modelled from the spec: models/pagination.py is not under src/; spec sec. 3
describes PaginationInfo as a plain derived record with exactly these fields. -/
structure PaginationInfo where
  limit : Nat
  offset : Nat
  count : Nat
  has_next : Bool
  has_prev : Bool
deriving DecidableEq, Repr

/-- One fused hit as consumed by `SearchService.search`: its fused score (which
the index may report as null) and its stored id field. -/
structure Hit where
  score : Option ℚ
  id : Int
deriving DecidableEq, Repr

/-- The hit-filtering loop of `SearchService.search` (lines 82-90): hits with a
null score or a score below the threshold are skipped, the rest contribute
their id in order. -/
def keptIds (hits : List Hit) (threshold : ℚ) : List Int :=
  hits.filterMap (fun h =>
    match h.score with
    | none => none
    | some s => if s < threshold then none else some h.id)

/-- `SearchService.search` (search_service.py lines 22-103), abstracted over the
fused index query: `engine o l` stands for the flattened hit list returned by
`hybrid_search` when called with offset `o` and limit `l`. The source calls it
with offset `offset * limit` and limit `limit + 1`, keeps above-threshold hits,
derives `has_next` from the overfetch, truncates to `limit`, and reports
`has_prev = offset > 0`. -/
def search (engine : Nat → Nat → List Hit) (limit offset : Nat) (threshold : ℚ) :
    List Int × PaginationInfo :=
  let hits := engine (offset * limit) (limit + 1)
  let ids := keptIds hits threshold
  let hasNext : Bool := decide (ids.length > limit)
  let ids2 := ids.take limit
  (ids2, ⟨limit, offset, ids2.length, hasNext, decide (offset > 0)⟩)

/-- A fused query that yields exactly eleven qualifying hits (score 1 each),
regardless of the requested window — the pagination scenario input. -/
def engineEleven : Nat → Nat → List Hit :=
  fun _ _ => (List.range 11).map (fun i => { score := some 1, id := (i : Int) })

/-- The message-processing loop of `RedisStreamConsumer.process_messages`
(consumer.py lines 108-147): each message is processed, and acknowledged both
on success (after the processed count is added) and when processing raises.
The second component is the acknowledgement trace in order. -/
def processMessagesAux : Nat → List String → List (String × Except String Nat) → Nat × List String
  | count, acks, [] => (count, acks)
  | count, acks, m :: rest =>
    match m.2 with
    | .ok r => processMessagesAux (count + r) (acks ++ [m.1]) rest
    | .error _ => processMessagesAux count (acks ++ [m.1]) rest

/-- `process_messages` on one batch read from the consumer group; each batch
entry is a message id paired with the outcome of `process_stream_message` on
its fields. Returns the processed count and the acknowledgement trace. -/
def processMessages (batch : List (String × Except String Nat)) : Nat × List String :=
  processMessagesAux 0 [] batch

/-- Right-pad a vector with zeros to length `n` (np.pad in the source). -/
def padZero (v : List ℚ) (n : Nat) : List ℚ :=
  v ++ List.replicate (n - v.length) 0

/-- `RecommendationService._combine_vectors` (recommend.py lines 447-485): an
empty side is returned unchanged with no weight applied; otherwise the shorter
vector is right-padded with zeros to the longer length and the weighted
element-wise sum is returned. -/
def combineVectors (a b : List ℚ) (wa wb : ℚ) : List ℚ :=
  if a = [] ∧ b = [] then []
  else if a = [] then b
  else if b = [] then a
  else
    let m := max a.length b.length
    List.zipWith (fun x y => wa * x + wb * y) (padZero a m) (padZero b m)

/-- The adaptive blend-weight selection of
`RecommendationService._calculate_user_vector` (recommend.py lines 240-245):
(profile weight, behavior weight) by total interaction count. -/
def blendWeights (interactionCount : Nat) : ℚ × ℚ :=
  if interactionCount < 5 then (0.9, 0.1)
  else if interactionCount < 20 then (0.6, 0.4)
  else (0.3, 0.7)

/-- The blending core of `_calculate_user_vector` (recommend.py lines 219-248):
with no user id or no short-term vector the long-term vector is returned alone;
otherwise the two vectors are combined with the adaptive weights. The final
L2 unit normalization the source applies afterwards is norm-only and does not
affect which weight pair is used. -/
def calculateUserVectorCore
    (longTerm shortTerm : List ℚ) (userId : Option Int) (interactionCount : Nat) : List ℚ :=
  match userId with
  | none => longTerm
  | some _ =>
    if shortTerm = [] then longTerm
    else
      let w := blendWeights interactionCount
      combineVectors longTerm shortTerm w.1 w.2

/-- Dot product of two rational vectors (np.dot on equal-length vectors). -/
def dotQ (a b : List ℚ) : ℚ :=
  (List.zipWith (fun x y => x * y) a b).sum

/-- Order on masked scores: `none` plays the role of negative infinity. -/
def optLE : Option ℚ → Option ℚ → Bool
  | none, _ => true
  | some _, none => false
  | some a, some b => decide (a ≤ b)

/-- Insert into a list sorted by descending key. -/
def insertDescBy {α : Type} (key : α → Option ℚ) (x : α) : List α → List α
  | [] => [x]
  | y :: ys => if optLE (key y) (key x) then x :: y :: ys else y :: insertDescBy key x ys

/-- Sort a list by descending key (models np.argsort on negated scores; the
source does not rely on any particular tie order). -/
def sortDescBy {α : Type} (key : α → Option ℚ) : List α → List α
  | [] => []
  | x :: xs => insertDescBy key x (sortDescBy key xs)

/-- The masked noisy scores of `CFModel._top_k_thompson` (cf_model.py lines
220-227): every item factor row is scored against the noisy user factor
`u + noise`, and with filter_seen the seen rows are masked to negative
infinity (`none`). -/
def thompsonMaskedScores (u noise : List ℚ) (itemFactors : List (List ℚ))
    (seen : Nat → Bool) (filterSeen : Bool) : List (Option ℚ) :=
  let noisy := List.zipWith (fun x y => x + y) u noise
  (List.range itemFactors.length).map (fun i =>
    if filterSeen && seen i then (none : Option ℚ)
    else some (dotQ (itemFactors.getD i []) noisy))

/-- The top-k index selection of `_top_k_thompson` (lines 228-232): item
indices ranked by descending masked noisy score, truncated to k. -/
def thompsonTopIndices (u noise : List ℚ) (itemFactors : List (List ℚ))
    (seen : Nat → Bool) (filterSeen : Bool) (k : Nat) : List Nat :=
  let masked := thompsonMaskedScores u noise itemFactors seen filterSeen
  (sortDescBy (fun i => masked.getD i none) (List.range itemFactors.length)).take k

/-- `CFModel._top_k_thompson` (cf_model.py lines 210-240): the selected indices
come from the noisy ranking, but each emitted pair carries the score of the
original noise-free user factor against that item; indices with no job-id
mapping are dropped. -/
def topKThompson (u noise : List ℚ) (itemFactors : List (List ℚ))
    (seen : Nat → Bool) (filterSeen : Bool) (idxToJob : Nat → Option Int) (k : Nat) :
    List (Int × ℚ) :=
  ((thompsonTopIndices u noise itemFactors seen filterSeen k).filterMap
    (fun i => (idxToJob i).map (fun j => (j, dotQ u (itemFactors.getD i []))))).take k

/-- One formatted recommendation entry (recommend.py lines 79-87). -/
structure RecOutput where
  jobId : Int
  title : String
  company : String
  location : String
  salaryRange : String
  score : ℚ
  source : String
deriving DecidableEq, Repr

/-- One hit as consumed by the formatting loop of
`RecommendationService.recommend`: the optional job_id output field, the hit
id, the stored text fields and the optional score attribute. -/
structure RecHit where
  jobId : Option Int
  hitId : Int
  title : String := ""
  company : String := ""
  location : String := ""
  salaryRange : String := ""
  score : Option ℚ := none
deriving DecidableEq, Repr

/-- Formatting of one hit (recommend.py lines 79-87). Python `get(job_id) or
hit.id` falls back to the hit id when job_id is absent or falsy (zero). -/
def formatHit (h : RecHit) : RecOutput :=
  { jobId :=
      match h.jobId with
      | some j => if j = 0 then h.hitId else j
      | none => h.hitId
    title := h.title
    company := h.company
    location := h.location
    salaryRange := h.salaryRange
    score := h.score.getD 0
    source := "content_based" }

/-- The fallible collaborators `recommend` calls, each modelled as the outcome
the call would have: ok with its value, or error when that call raises.
`profile` is the truthiness of the fetched user profile, `userVector` the
outcome of `_calculate_user_vector`, `searchResults` the outcome of the Milvus
similarity query (a list of hit lists, one per query vector, together with the
filter-expression construction), and `popular` the outcome of the popularity
query inside the fallback. -/
structure RecEnv where
  profile : Except String Bool
  interactions : Except String Unit
  userVector : Except String (List ℚ)
  searchResults : Except String (List (List RecHit))
  popular : Except String (List RecOutput)

/-- Modelled from the spec: `_get_popular_jobs` is called by recommend but its
definition is not under src/. Per spec sec. 7, recommend degrades
personalized, then popularity fallback, then empty list, and never raises:
the fallback therefore returns its popularity query result and itself degrades
to the empty list when that query fails. -/
def getPopularJobs (env : RecEnv) : List RecOutput :=
  match env.popular with
  | .ok l => l
  | .error _ => []

/-- The try-block of `RecommendationService.recommend` (recommend.py lines
46-89): fetch profile and interactions, fall back to popular jobs on a falsy
profile, an empty user vector, or empty search results, otherwise format the
top-k hits. Any raise inside the block surfaces as an error of this body. -/
def recommendBody (env : RecEnv) (topK : Nat) : Except String (List RecOutput) := do
  let profileTruthy ← env.profile
  let _ ← env.interactions
  if !profileTruthy then
    pure (getPopularJobs env)
  else do
    let uv ← env.userVector
    if uv = [] then pure (getPopularJobs env)
    else do
      let results ← env.searchResults
      match results with
      | [] => pure (getPopularJobs env)
      | first :: _ =>
        if first = [] then pure (getPopularJobs env)
        else pure ((first.take topK).map formatHit)

/-- `RecommendationService.recommend` (recommend.py lines 30-94) including the
exception handler: on any raise inside the body the popularity fallback is
returned instead. -/
def recommend (env : RecEnv) (topK : Nat) : Except String (List RecOutput) :=
  match recommendBody env topK with
  | .ok l => .ok l
  | .error _ => .ok (getPopularJobs env)

/-- `RecommendationService._exp_time_decay` (recommend.py lines 487-506) over
the reals: an absent (or unparsable, also mapped to `none` here) timestamp
gives 1.0, else the exponential half-life decay of the non-negative elapsed
days. A zero half-life raises ZeroDivisionError in the source and the handler
returns 1.0; in Lean division by zero yields 0 and the value is likewise
`exp 0 = 1`, so no separate branch is needed. -/
noncomputable def expTimeDecay (ts : Option ℝ) (nowTs : ℝ) (halfLifeDays : ℝ) : ℝ :=
  match ts with
  | none => 1
  | some t => Real.exp (-(Real.log 2) * (max 0 ((nowTs - t) / 86400) / halfLifeDays))

/-- C10 counterexample input: status present but falsy, excludeExpired
disabled, nothing else — a non-empty dict with a falsy status. -/
def fStatusFalsy : Filters :=
  { status := some (.sv .vnone), excludeExpired := some (.sv (.vbool false)) }

/-- A fully degraded environment: every collaborator call raises. -/
def envAllDown : RecEnv :=
  { profile := .error "profile service down"
    interactions := .error "interactions down"
    userVector := .error "vector down"
    searchResults := .error "milvus down"
    popular := .error "db down" }

/-- The acknowledgement trace of the processing loop extends the accumulator by
one entry per batch message, in order, whatever the outcomes. -/
theorem processMessagesAux_acks (batch : List (String × Except String Nat)) :
    ∀ count acks, (processMessagesAux count acks batch).2 = acks ++ batch.map Prod.fst := by
  induction batch with
  | nil => intro count acks; simp [processMessagesAux]
  | cons m rest ih =>
    intro count acks
    match hm : m.2 with
    | .ok r => simp [processMessagesAux, hm, ih]
    | .error e => simp [processMessagesAux, hm, ih]

/-- C9: in the stream consumer processing loop, every message read from the
consumer group is acknowledged exactly once per processing attempt — the
acknowledgement trace equals the batch message-id list, independently of
whether each `process_stream_message` call succeeds or raises. -/
theorem processMessages_ack_exactly_once (batch : List (String × Except String Nat)) :
    (processMessages batch).2 = batch.map Prod.fst := by
  simp [processMessages, processMessagesAux_acks]

/-- C4: `search` requests `limit+1` fused hits starting at `offset * limit`
(made explicit by the equation with `engine (offset * limit) (limit + 1)`),
keeps the above-threshold hits, sets has_next exactly when more than `limit`
hits were kept, truncates the id list to at most `limit` entries, and sets
has_prev exactly when `offset > 0`; moreover with limit 10, offset 0 and
exactly eleven qualifying hits it returns ten ids with has_next and without
has_prev. -/
theorem search_pagination_spec :
    (∀ (engine : Nat → Nat → List Hit) (limit offset : Nat) (threshold : ℚ),
      (search engine limit offset threshold).1 =
        (keptIds (engine (offset * limit) (limit + 1)) threshold).take limit ∧
      (search engine limit offset threshold).1.length ≤ limit ∧
      ((search engine limit offset threshold).2.has_next = true ↔
        (keptIds (engine (offset * limit) (limit + 1)) threshold).length > limit) ∧
      ((search engine limit offset threshold).2.has_prev = true ↔ offset > 0) ∧
      (search engine limit offset threshold).2.limit = limit ∧
      (search engine limit offset threshold).2.offset = offset ∧
      (search engine limit offset threshold).2.count =
        (search engine limit offset threshold).1.length) ∧
    ((search engineEleven 10 0 (mkRat 1 2)).1.length = 10 ∧
      (search engineEleven 10 0 (mkRat 1 2)).2.has_next = true ∧
      (search engineEleven 10 0 (mkRat 1 2)).2.has_prev = false) := by
  constructor
  · intro engine limit offset threshold
    refine ⟨rfl, ?_, ?_, ?_, rfl, rfl, rfl⟩
    · simp only [search]
      exact List.length_take_le limit _
    · simp [search]
    · simp [search]
  · refine ⟨?_, ?_, ?_⟩ <;> decide

/-- Padding never changes the defaulted element read at any index. -/
theorem padZero_getD (v : List ℚ) (n i : Nat) : (padZero v n).getD i 0 = v.getD i 0 := by
  induction v generalizing n i with
  | nil =>
    simp only [padZero, List.nil_append, List.length_nil, Nat.sub_zero]
    induction n generalizing i with
    | zero => rfl
    | succ m ih =>
      cases i with
      | zero => rfl
      | succ j => simp only [List.replicate, List.getD_cons_succ]; exact ih j
  | cons x xs ih =>
    cases i with
    | zero => rfl
    | succ j =>
      have hrep : n - (xs.length + 1) = (n - 1) - xs.length := by omega
      simp only [padZero, List.length_cons, List.cons_append, List.getD_cons_succ, hrep]
      exact ih (n - 1) j

/-- Length of a right-padded vector. -/
theorem padZero_length (v : List ℚ) (n : Nat) : (padZero v n).length = max v.length n := by
  simp only [padZero, List.length_append, List.length_replicate]
  omega

/-- Defaulted read of a zipWith at an in-bounds index. -/
theorem getD_zipWith (f : ℚ → ℚ → ℚ) :
    ∀ (a b : List ℚ) (i : Nat), i < a.length → i < b.length →
      (List.zipWith f a b).getD i 0 = f (a.getD i 0) (b.getD i 0) := by
  intro a
  induction a with
  | nil => intro b i h _; exact absurd h (by simp)
  | cons x xs ih =>
    intro b i ha hb
    cases b with
    | nil => exact absurd hb (by simp)
    | cons y ys =>
      cases i with
      | zero => rfl
      | succ j =>
        simp only [List.zipWith_cons_cons, List.getD_cons_succ]
        exact ih ys j (by simpa using ha) (by simpa using hb)

/-- C8: `_combine_vectors` returns the other vector unchanged when either input
is empty (no weight applied), and otherwise right-pads the shorter vector with
zeros to the longer length and returns the element-wise weighted sum — the
result has the longer length (never truncates) and every entry is
`wa * a[i] + wb * b[i]` with out-of-range entries read as zero; no length
mismatch is an error. -/
theorem combineVectors_spec :
    (∀ (a b : List ℚ) (wa wb : ℚ),
      combineVectors a [] wa wb = a ∧ combineVectors [] b wa wb = b) ∧
    (∀ (a b : List ℚ) (wa wb : ℚ), a ≠ [] → b ≠ [] →
      (combineVectors a b wa wb).length = max a.length b.length ∧
      ∀ i : Nat, i < max a.length b.length →
        (combineVectors a b wa wb).getD i 0 = wa * a.getD i 0 + wb * b.getD i 0) := by
  constructor
  · intro a b wa wb
    constructor
    · cases a with
      | nil => simp [combineVectors]
      | cons x xs => simp [combineVectors]
    · cases b with
      | nil => simp [combineVectors]
      | cons y ys => simp [combineVectors]
  · intro a b wa wb ha hb
    have hcomb : combineVectors a b wa wb =
        List.zipWith (fun x y => wa * x + wb * y)
          (padZero a (max a.length b.length)) (padZero b (max a.length b.length)) := by
      simp [combineVectors, ha, hb]
    constructor
    · rw [hcomb, List.length_zipWith, padZero_length, padZero_length]
      omega
    · intro i hi
      rw [hcomb, getD_zipWith, padZero_getD, padZero_getD]
      · rw [padZero_length]; omega
      · rw [padZero_length]; omega

/-- Witness for C8 at concrete inputs: identity on an empty side, and padded
weighted sum including a padded (zero) tail position. -/
theorem combineVectors_spec_witness :
    combineVectors [1, 2] ([] : List ℚ) 3 7 = [1, 2] ∧
    (combineVectors [(1 : ℚ), 2] [3] 2 5).length = max ([(1 : ℚ), 2].length) ([(3 : ℚ)].length) ∧
    (combineVectors [(1 : ℚ), 2] [3] 2 5).getD 1 0 =
      2 * [(1 : ℚ), 2].getD 1 0 + 5 * [(3 : ℚ)].getD 1 0 :=
  ⟨(combineVectors_spec.1 [1, 2] [3] 3 7).1,
   (combineVectors_spec.2 [1, 2] [3] 2 5 (by decide) (by decide)).1,
   (combineVectors_spec.2 [1, 2] [3] 2 5 (by decide) (by decide)).2 1 (by decide)⟩

/-- C6: the blending step of `_calculate_user_vector` uses exactly the weight
pair (0.9, 0.1) for fewer than 5 interactions, (0.6, 0.4) for 5 to 19, and
(0.3, 0.7) for 20 or more; in particular at counts 0, 4, 5, 19, 20, 100. -/
theorem userVector_blend_weight_tiers :
    (∀ (longTerm shortTerm : List ℚ) (i : Int) (c : Nat), shortTerm ≠ [] →
      calculateUserVectorCore longTerm shortTerm (some i) c =
        combineVectors longTerm shortTerm
          (if c < 5 then (0.9 : ℚ) else if c < 20 then 0.6 else 0.3)
          (if c < 5 then (0.1 : ℚ) else if c < 20 then 0.4 else 0.7)) ∧
    blendWeights 0 = (0.9, 0.1) ∧ blendWeights 4 = (0.9, 0.1) ∧
    blendWeights 5 = (0.6, 0.4) ∧ blendWeights 19 = (0.6, 0.4) ∧
    blendWeights 20 = (0.3, 0.7) ∧ blendWeights 100 = (0.3, 0.7) := by
  refine ⟨?_, rfl, rfl, rfl, rfl, rfl, rfl⟩
  intro longTerm shortTerm i c hshort
  simp only [calculateUserVectorCore, if_neg hshort]
  by_cases h5 : c < 5
  · simp [blendWeights, h5]
  · by_cases h20 : c < 20 <;> simp [blendWeights, h5, h20]

/-- Witness for C6: one concrete blend (count 0, nonempty short-term vector)
routed through the theorem. -/
theorem userVector_blend_weight_tiers_witness :
    calculateUserVectorCore [(1 : ℚ)] [(2 : ℚ)] (some 7) 0 =
      combineVectors [(1 : ℚ)] [(2 : ℚ)]
        (if 0 < 5 then (0.9 : ℚ) else if 0 < 20 then 0.6 else 0.3)
        (if 0 < 5 then (0.1 : ℚ) else if 0 < 20 then 0.4 else 0.7) :=
  userVector_blend_weight_tiers.1 [(1 : ℚ)] [(2 : ℚ)] 7 0 (by decide)

/-- C2 counterexample: the claim says `_build_filter_expression` on `None` and
on the empty dict yields the PUBLISHED condition conjoined with the
non-expired clause; in the code both early-return the bare PUBLISHED-only
predicate, which differs from the claimed conjunction (shown at
nowMs = 1700000000000). -/
theorem buildFilter_default_counterexample :
    buildFilterExpression none 1700000000000 = .ok published ∧
    buildFilterExpression (some ({} : Filters)) 1700000000000 = .ok published ∧
    published ≠
      published ++ " && (date_expires == 0 || date_expires > 1700000000000)" :=
  ⟨rfl, rfl, by decide⟩

/-- C2 amended: `_build_filter_expression` on `None` and on any empty filters
dict yields exactly the PUBLISHED-only predicate; the non-expired clause is
added only for non-empty filter dicts (when excludeExpired is not disabled). -/
theorem buildFilter_default_published_only (nowMs : Int) :
    buildFilterExpression none nowMs = .ok published ∧
    ∀ f : Filters, isEmptyF f = true → buildFilterExpression (some f) nowMs = .ok published :=
  ⟨rfl, fun f hf => by simp [buildFilterExpression, hf]⟩

/-- Witness for (amended) C2 at the empty filters record and nowMs = 0. -/
theorem buildFilter_default_published_only_witness :
    buildFilterExpression (some ({} : Filters)) 0 = .ok published :=
  (buildFilter_default_published_only 0).2 {} (by decide)

/-- C10 counterexample: the claim says every non-empty filters dict with a
falsy status yields a predicate with no status condition at all; for this
dict no condition survives, so the code falls back to the PUBLISHED-only
predicate — a status condition. -/
theorem status_falsy_counterexample :
    isEmptyF fStatusFalsy = false ∧
    buildFilterExpression (some fStatusFalsy) 0 = .ok published ∧
    published = "status == " ++ sq ++ "PUBLISHED" ++ sq := by
  refine ⟨rfl, by decide, rfl⟩

/-- C10 amended: a present falsy status suppresses the status condition, so
the conditions list is exactly the remaining conditions; whenever at least one
other condition survives (e.g. the default expiry clause), the returned
predicate is their conjunction and contains no status condition — but if no
condition survives at all, the build falls back to the PUBLISHED-only
predicate. -/
theorem status_falsy_amended (f : Filters) (nowMs : Int) (v : FVal)
    (hstat : f.status = some v) (hfalsy : isTruthy v = false) :
    statusCondition f = [] ∧
    buildConditions f nowMs = restConditions f nowMs ∧
    (∀ l, restConditions f nowMs = .ok l → l ≠ [] →
      buildFilterExpression (some f) nowMs = .ok (String.intercalate " && " l)) := by
  have hsc : statusCondition f = [] := by
    simp [statusCondition, hstat, hfalsy]
  refine ⟨hsc, ?_, ?_⟩
  · cases hr : restConditions f nowMs with
    | ok l => simp only [buildConditions, hr, hsc]; rfl
    | error e => simp only [buildConditions, hr]; rfl
  · intro l hl hlne
    have hne2 : isEmptyF f = false := by
      simp [isEmptyF, hstat]
    cases l with
    | nil => exact absurd rfl hlne
    | cons c cs =>
      simp only [buildFilterExpression, hne2, Bool.false_eq_true, if_false,
        buildConditions, hl, hsc]
      rfl

/-- Witness for (amended) C10: with only a falsy status supplied, the default
expiry clause is the sole condition and becomes the whole predicate. -/
theorem status_falsy_amended_witness :
    buildFilterExpression (some ({ status := some (.sv .vnone) } : Filters)) 5 =
      .ok ("(date_expires == 0 || date_expires > 5)") :=
  (status_falsy_amended { status := some (.sv .vnone) } 5 (.sv .vnone) rfl (by decide)).2.2
    ["(date_expires == 0 || date_expires > 5)"] (by decide) (by decide)

/-- C1: `recommend` always returns a value (never raises): a raise anywhere in
the personalized path is degraded to the popularity fallback, and when the
popularity query itself fails the fallback degrades to the empty list. -/
theorem recommend_never_raises (env : RecEnv) (topK : Nat) :
    (∃ l, recommend env topK = .ok l) ∧
    (∀ e, recommendBody env topK = .error e →
      recommend env topK = .ok (getPopularJobs env)) ∧
    (∀ e eP, recommendBody env topK = .error e → env.popular = .error eP →
      recommend env topK = .ok []) := by
  refine ⟨?_, ?_, ?_⟩
  · cases h : recommendBody env topK with
    | ok l => exact ⟨l, by simp [recommend, h]⟩
    | error e => exact ⟨getPopularJobs env, by simp [recommend, h]⟩
  · intro e he
    simp [recommend, he]
  · intro e eP he hp
    simp [recommend, he, getPopularJobs, hp]

/-- Witness for C1: with every collaborator raising, recommend still returns,
with the empty list. -/
theorem recommend_never_raises_witness :
    recommend envAllDown 20 = .ok [] :=
  (recommend_never_raises envAllDown 20).2.2 "profile service down" "db down" rfl rfl

/-- C5: every pair returned by the Thompson-sampling strategy was selected by
the masked noisy ranking (its index is among the top-k indices by noisy
score), yet its reported score is the dot product of the original noise-free
user factor with that item factor — noise influences selection, never the
reported score. -/
theorem thompson_reported_scores_noise_free
    (u noise : List ℚ) (itemFactors : List (List ℚ)) (seen : Nat → Bool)
    (filterSeen : Bool) (idxToJob : Nat → Option Int) (k : Nat) :
    ∀ p ∈ topKThompson u noise itemFactors seen filterSeen idxToJob k,
      ∃ i ∈ thompsonTopIndices u noise itemFactors seen filterSeen k,
        idxToJob i = some p.1 ∧ p.2 = dotQ u (itemFactors.getD i []) := by
  intro p hp
  have hp2 := List.mem_of_mem_take hp
  rw [List.mem_filterMap] at hp2
  obtain ⟨i, hi, hmap⟩ := hp2
  obtain ⟨j, hj, hji⟩ := Option.map_eq_some'.mp hmap
  subst hji
  exact ⟨i, hi, hj, rfl⟩

section

attribute [local semireducible] Rat.add Rat.mul

/-- Witness for C5 at a concrete instance: with user factor [1] and noise [10],
item 1 wins the noisy ranking and its reported score is the noise-free dot
product 2. -/
theorem thompson_reported_scores_noise_free_witness :
    ∃ i ∈ thompsonTopIndices [1] [10] [[1], [2]] (fun _ => false) false 1,
      (fun n => some (Int.ofNat n)) i = some (((1 : Int), (2 : ℚ)).1) ∧
      ((1 : Int), (2 : ℚ)).2 = dotQ [1] ([[1], [2]].getD i []) :=
  thompson_reported_scores_noise_free [1] [10] [[1], [2]] (fun _ => false) false
    (fun n => some (Int.ofNat n)) 1 ((1 : Int), (2 : ℚ)) (by decide)

end

/-- C7 counterexample: with nowTs = 1, the timestamp 2 is more recent than the
timestamp 1, yet both decay values equal 1 because elapsed time is clamped at
zero — strict monotonicity fails for future timestamps. -/
theorem expTimeDecay_monotone_counterexample :
    ¬ (expTimeDecay (some 2) 1 30 > expTimeDecay (some 1) 1 30) := by
  have h1 : expTimeDecay (some 2) 1 30 = 1 := by
    simp only [expTimeDecay]
    have hm : max (0 : ℝ) ((1 - 2) / 86400) = 0 := max_eq_left (by norm_num)
    rw [hm]
    norm_num [Real.exp_zero]
  have h2 : expTimeDecay (some 1) 1 30 = 1 := by
    simp only [expTimeDecay]
    norm_num [Real.exp_zero]
  rw [h1, h2]
  exact lt_irrefl 1

/-- C7 amended: for a positive half-life, decay is strictly larger for the
strictly more recent of two non-future timestamps, and decay of an absent
timestamp is exactly 1. -/
theorem expTimeDecay_monotone_amended (t1 t2 nowTs h : ℝ)
    (hh : 0 < h) (h21 : t2 < t1) (h1n : t1 ≤ nowTs) :
    expTimeDecay (some t1) nowTs h > expTimeDecay (some t2) nowTs h ∧
    expTimeDecay none nowTs h = 1 := by
  constructor
  · simp only [expTimeDecay, gt_iff_lt]
    have hd1 : max (0 : ℝ) ((nowTs - t1) / 86400) = (nowTs - t1) / 86400 :=
      max_eq_right (div_nonneg (by linarith) (by norm_num))
    have hd2 : max (0 : ℝ) ((nowTs - t2) / 86400) = (nowTs - t2) / 86400 :=
      max_eq_right (div_nonneg (by linarith) (by norm_num))
    rw [hd1, hd2, Real.exp_lt_exp]
    have hlog : 0 < Real.log 2 := Real.log_pos (by norm_num)
    have hsub : nowTs - t1 < nowTs - t2 := by linarith
    have hdays : (nowTs - t1) / 86400 < (nowTs - t2) / 86400 :=
      (div_lt_div_iff_of_pos_right (by norm_num : (0 : ℝ) < 86400)).mpr hsub
    have hdiv : (nowTs - t1) / 86400 / h < (nowTs - t2) / 86400 / h :=
      (div_lt_div_iff_of_pos_right hh).mpr hdays
    exact mul_lt_mul_of_neg_left hdiv (by linarith)
  · rfl

/-- Witness for (amended) C7: one day of age at half-life one day halves the
decay relative to a fresh timestamp. -/
theorem expTimeDecay_monotone_amended_witness :
    expTimeDecay (some 86400) 86400 1 > expTimeDecay (some 0) 86400 1 ∧
    expTimeDecay none 86400 1 = 1 :=
  expTimeDecay_monotone_amended 86400 0 86400 1 (by norm_num) (by norm_num) (by norm_num)

end JobSearch
